import Mathlib

/-!
Shallow embedding of the desktop-pet simulation core
(`src/my-desktop-pet/src-tauri/src/lib.rs`).

Machine floats (`f32`) are modelled by exact rationals `ℚ`; the claims under
study concern control flow, clamping and exact multiplicative factors, none of
which depend on rounding. Wall-clock time (`Instant`) is modelled by passing
the elapsed seconds since the previous update as an explicit non-negative
rational argument. The ambient random generator (`rand::thread_rng`) is
modelled by an explicit oracle record carrying the outcomes of the draws the
code can make in one `update` call.
-/

/-- Constants from the top of `lib.rs`. -/
def DEFAULT_WINDOW_WIDTH : ℚ := 400

def DEFAULT_WINDOW_HEIGHT : ℚ := 300

def PET_WIDTH : ℚ := 32

def PET_HEIGHT : ℚ := 30

/-- Constants local to `PetState::update`. -/
def GRAVITY : ℚ := 980

def JUMP_FORCE : ℚ := -500

def MAX_SPEED_X : ℚ := 200

def BOUNCE_FACTOR_X : ℚ := 4 / 5

def RIGHT_BOUNCE_FACTOR : ℚ := 1 / 2

def MOVEMENT_THRESHOLD : ℚ := 5

/-- The eight animation labels (`enum AnimationState`). -/
inductive AnimationState where
  | IdleRight
  | IdleLeft
  | RunningRight
  | RunningLeft
  | JumpingRight
  | JumpingLeft
  | FallingRight
  | FallingLeft
  deriving DecidableEq, Repr

/-- The label strings, `AnimationState::to_string`. -/
def AnimationState.to_string : AnimationState → String
  | .IdleRight => "idle-right"
  | .IdleLeft => "idle-left"
  | .RunningRight => "run-right"
  | .RunningLeft => "run-left"
  | .JumpingRight => "jump-right"
  | .JumpingLeft => "jump-left"
  | .FallingRight => "fall-right"
  | .FallingLeft => "fall-left"

/-- The record `struct PetState`. The `last_update : Instant` field is not embedded;
instead each `update` call receives the elapsed seconds since the previous
call as an argument (the only use the code makes of `last_update`). -/
structure PetState where
  x : ℚ
  y : ℚ
  velocity_x : ℚ
  velocity_y : ℚ
  is_on_ground : Bool
  window_width : ℚ
  window_height : ℚ
  animation_state : AnimationState
  facing_direction : Bool
  deriving DecidableEq, Repr

/-- Outcomes of the random draws one `update` call can make:
`rng.gen_bool(0.01)` (the jump trial), `rng.gen_range(0.0..MAX_SPEED_X)`
(horizontal launch velocity when facing right),
`rng.gen_range(-MAX_SPEED_X..0.0)` (when facing left), and
`rng.gen_bool(0.1)` (the inversion trial). The drawn velocities are kept
abstract; no claim depends on their range. -/
structure RandOracle where
  jumpTrial : Bool
  hVelRight : ℚ
  hVelLeft : ℚ
  invertTrial : Bool
  deriving DecidableEq, Repr

/-- Width sanitisation in `PetState::new`: `if window_width <= 0.0 {
DEFAULT_WINDOW_WIDTH } else { window_width }`. -/
def effectiveWidthNew (w : ℚ) : ℚ :=
  if w ≤ 0 then DEFAULT_WINDOW_WIDTH else w

/-- Height sanitisation in `PetState::new`. -/
def effectiveHeightNew (h : ℚ) : ℚ :=
  if h ≤ 0 then DEFAULT_WINDOW_HEIGHT else h

/-- Width sanitisation in `PetState::update`: `if window_width <= 10.0 {
DEFAULT_WINDOW_WIDTH } else { window_width }`. -/
def effectiveWidthUpd (w : ℚ) : ℚ :=
  if w ≤ 10 then DEFAULT_WINDOW_WIDTH else w

/-- Height sanitisation in `PetState::update`. -/
def effectiveHeightUpd (h : ℚ) : ℚ :=
  if h ≤ 10 then DEFAULT_WINDOW_HEIGHT else h

/-- The constructor `PetState::new`. -/
def PetState.new (window_width window_height : ℚ) : PetState :=
  { x := effectiveWidthNew window_width / 2 - PET_WIDTH / 2
    y := effectiveHeightNew window_height - PET_HEIGHT
    velocity_x := 0
    velocity_y := 0
    is_on_ground := true
    window_width := effectiveWidthNew window_width
    window_height := effectiveHeightNew window_height
    animation_state := .IdleRight
    facing_direction := true }

/-- Executable absolute value, `f32::abs`, written executably so that concrete states evaluate by `decide`. -/
def fabs (q : ℚ) : ℚ := if q < 0 then -q else q

lemma fabs_eq_abs (q : ℚ) : fabs q = |q| := by
  unfold fabs
  rcases lt_or_le q 0 with h | h
  · rw [if_pos h, abs_of_neg h]
  · rw [if_neg (not_lt.mpr h), abs_of_nonneg h]

/-- Executable minimum, `f32::min`, written executably so that concrete states evaluate by `decide`. -/
def fmin (a b : ℚ) : ℚ := if a ≤ b then a else b

lemma fmin_eq_min (a b : ℚ) : fmin a b = min a b := (min_def a b).symm

/-- The resize-detection block at the head of `update`: cache the new window
dimensions when either differs from the cached one by more than 1.0
(used only for logging; physics reads the raw arguments). -/
def cacheWindow (s : PetState) (window_width window_height : ℚ) : PetState :=
  if 1 < fabs (s.window_width - window_width) ∨ 1 < fabs (s.window_height - window_height) then
    { s with window_width := window_width, window_height := window_height }
  else s

/-- The clock: `delta_time = delta_time.min(0.05)` applied to the elapsed
seconds since the previous update. -/
def computeDeltaTime (elapsed : ℚ) : ℚ :=
  fmin elapsed (1 / 20)

/-- Gravity, `if !self.is_on_ground { self.velocity_y += GRAVITY * delta_time; }`. -/
def applyGravity (s : PetState) (dt : ℚ) : PetState :=
  if s.is_on_ground then s
  else { s with velocity_y := s.velocity_y + GRAVITY * dt }

/-- The spontaneous-jump block, `if self.is_on_ground && rng.gen_bool(0.01)`. -/
def applyJump (s : PetState) (o : RandOracle) : PetState :=
  if s.is_on_ground && o.jumpTrial then
    let vx0 := if s.facing_direction then o.hVelRight else o.hVelLeft
    let vx1 := if o.invertTrial then vx0 * (-(1 / 2)) else vx0
    { s with velocity_y := JUMP_FORCE, velocity_x := vx1, is_on_ground := false }
  else s

/-- Euler integration, `self.x += self.velocity_x * delta_time` and likewise for `y`. -/
def integratePos (s : PetState) (dt : ℚ) : PetState :=
  { s with x := s.x + s.velocity_x * dt, y := s.y + s.velocity_y * dt }

/-- Floor boundary: `if self.y > floor` with `floor = effective_height - PET_HEIGHT`. -/
def resolveFloor (s : PetState) (eh : ℚ) : PetState :=
  if eh - PET_HEIGHT < s.y then
    { s with y := eh - PET_HEIGHT, velocity_y := 0, is_on_ground := true }
  else s

/-- Ceiling boundary: `if self.y < 0.0`. -/
def resolveCeiling (s : PetState) : PetState :=
  if s.y < 0 then { s with y := 0, velocity_y := 0 } else s

/-- Left boundary: `if self.x < 0.0`. -/
def resolveLeft (s : PetState) : PetState :=
  if s.x < 0 then
    { s with x := 0
             velocity_x := -s.velocity_x * BOUNCE_FACTOR_X
             facing_direction := true }
  else s

/-- Right boundary: `if self.x > right_boundary` with
`right_boundary = effective_width - PET_WIDTH`. -/
def resolveRight (s : PetState) (ew : ℚ) : PetState :=
  if ew - PET_WIDTH < s.x then
    { s with x := ew - PET_WIDTH
             velocity_x := -s.velocity_x * RIGHT_BOUNCE_FACTOR
             facing_direction := false }
  else s

/-- The animation classifier at the tail of `update`. -/
def classify (s : PetState) : AnimationState :=
  if s.is_on_ground then
    if MOVEMENT_THRESHOLD < fabs s.velocity_x then
      if 0 ≤ s.velocity_x then .RunningRight else .RunningLeft
    else
      if s.facing_direction then .IdleRight else .IdleLeft
  else
    if s.velocity_y < 0 then
      if s.facing_direction then .JumpingRight else .JumpingLeft
    else
      if s.facing_direction then .FallingRight else .FallingLeft

/-- State after the clock, integrator and jump stages of one `update` call,
just before boundary resolution. -/
def preResolve (s : PetState) (o : RandOracle) (elapsed window_width window_height : ℚ) :
    PetState :=
  let dt := computeDeltaTime elapsed
  integratePos (applyJump (applyGravity (cacheWindow s window_width window_height) dt) o) dt

/-- State after the floor clamp. -/
def afterFloor (s : PetState) (o : RandOracle) (elapsed window_width window_height : ℚ) :
    PetState :=
  resolveFloor (preResolve s o elapsed window_width window_height)
    (effectiveHeightUpd window_height)

/-- State after the ceiling clamp. -/
def afterCeiling (s : PetState) (o : RandOracle) (elapsed window_width window_height : ℚ) :
    PetState :=
  resolveCeiling (afterFloor s o elapsed window_width window_height)

/-- State after the left-wall clamp. -/
def afterLeft (s : PetState) (o : RandOracle) (elapsed window_width window_height : ℚ) :
    PetState :=
  resolveLeft (afterCeiling s o elapsed window_width window_height)

/-- State after the right-wall clamp. -/
def afterRight (s : PetState) (o : RandOracle) (elapsed window_width window_height : ℚ) :
    PetState :=
  resolveRight (afterLeft s o elapsed window_width window_height)
    (effectiveWidthUpd window_width)

/-- One full simulation step, `PetState::update`. -/
def PetState.update (s : PetState) (o : RandOracle)
    (elapsed window_width window_height : ℚ) : PetState :=
  let s7 := afterRight s o elapsed window_width window_height
  { s7 with animation_state := classify s7 }

/-- The floor clamp fires in this call (`self.y > floor` at the check). -/
def floorApplies (s : PetState) (o : RandOracle) (elapsed w h : ℚ) : Prop :=
  effectiveHeightUpd h - PET_HEIGHT < (preResolve s o elapsed w h).y

/-- The ceiling clamp fires in this call (`self.y < 0.0` at the check). -/
def ceilingApplies (s : PetState) (o : RandOracle) (elapsed w h : ℚ) : Prop :=
  (afterFloor s o elapsed w h).y < 0

/-- The left-wall clamp fires in this call (`self.x < 0.0` at the check). -/
def leftApplies (s : PetState) (o : RandOracle) (elapsed w h : ℚ) : Prop :=
  (afterCeiling s o elapsed w h).x < 0

/-- The right-wall clamp fires in this call (`self.x > right_boundary` at the check). -/
def rightApplies (s : PetState) (o : RandOracle) (elapsed w h : ℚ) : Prop :=
  effectiveWidthUpd w - PET_WIDTH < (afterLeft s o elapsed w h).x

instance (s o elapsed w h) : Decidable (floorApplies s o elapsed w h) := by
  unfold floorApplies; infer_instance

instance (s o elapsed w h) : Decidable (ceilingApplies s o elapsed w h) := by
  unfold ceilingApplies; infer_instance

instance (s o elapsed w h) : Decidable (leftApplies s o elapsed w h) := by
  unfold leftApplies; infer_instance

instance (s o elapsed w h) : Decidable (rightApplies s o elapsed w h) := by
  unfold rightApplies; infer_instance

/-- Tauri command `get_pet_movement`: advance one step, return position and label. -/
def get_pet_movement (s : PetState) (o : RandOracle) (elapsed w h : ℚ) :
    PetState × ℚ × ℚ × String :=
  let s' := s.update o elapsed w h
  (s', s'.x, s'.y, s'.animation_state.to_string)

/-- Tauri command `reset_pet_position`: reinitialise, return position and label. -/
def reset_pet_position (w h : ℚ) : PetState × ℚ × ℚ × String :=
  let s := PetState.new w h
  (s, s.x, s.y, s.animation_state.to_string)

/-- The inputs of one `advance` (`get_pet_movement`) call: the random-draw
outcomes, the elapsed seconds, and the viewport dimensions. -/
structure StepIn where
  oracle : RandOracle
  elapsed : ℚ
  w : ℚ
  h : ℚ
  deriving DecidableEq, Repr

/-- Run a sequence of `advance` calls from a starting state. -/
def runSteps (s : PetState) (l : List StepIn) : PetState :=
  l.foldl (fun st i => st.update i.oracle i.elapsed i.w i.h) s

/-- The bounds invariant relative to a viewport. -/
def inBounds (s : PetState) (w h : ℚ) : Prop :=
  0 ≤ s.x ∧ s.x ≤ w - PET_WIDTH ∧ 0 ≤ s.y ∧ s.y ≤ h - PET_HEIGHT

/-- The invariant relating ground contact and vertical velocity. -/
def groundedZeroVy (s : PetState) : Prop :=
  s.is_on_ground = true → s.velocity_y = 0

/-! ### Projection lemmas for the pipeline stages -/

@[simp] lemma cacheWindow_x (s : PetState) (w h : ℚ) : (cacheWindow s w h).x = s.x := by
  unfold cacheWindow; split_ifs <;> rfl

@[simp] lemma cacheWindow_y (s : PetState) (w h : ℚ) : (cacheWindow s w h).y = s.y := by
  unfold cacheWindow; split_ifs <;> rfl

@[simp] lemma cacheWindow_vx (s : PetState) (w h : ℚ) :
    (cacheWindow s w h).velocity_x = s.velocity_x := by
  unfold cacheWindow; split_ifs <;> rfl

@[simp] lemma cacheWindow_vy (s : PetState) (w h : ℚ) :
    (cacheWindow s w h).velocity_y = s.velocity_y := by
  unfold cacheWindow; split_ifs <;> rfl

@[simp] lemma cacheWindow_ground (s : PetState) (w h : ℚ) :
    (cacheWindow s w h).is_on_ground = s.is_on_ground := by
  unfold cacheWindow; split_ifs <;> rfl

@[simp] lemma cacheWindow_facing (s : PetState) (w h : ℚ) :
    (cacheWindow s w h).facing_direction = s.facing_direction := by
  unfold cacheWindow; split_ifs <;> rfl

@[simp] lemma applyGravity_x (s : PetState) (dt : ℚ) : (applyGravity s dt).x = s.x := by
  unfold applyGravity; split_ifs <;> rfl

@[simp] lemma applyGravity_y (s : PetState) (dt : ℚ) : (applyGravity s dt).y = s.y := by
  unfold applyGravity; split_ifs <;> rfl

@[simp] lemma applyGravity_vx (s : PetState) (dt : ℚ) :
    (applyGravity s dt).velocity_x = s.velocity_x := by
  unfold applyGravity; split_ifs <;> rfl

@[simp] lemma applyGravity_ground (s : PetState) (dt : ℚ) :
    (applyGravity s dt).is_on_ground = s.is_on_ground := by
  unfold applyGravity; split_ifs <;> rfl

@[simp] lemma applyGravity_facing (s : PetState) (dt : ℚ) :
    (applyGravity s dt).facing_direction = s.facing_direction := by
  unfold applyGravity; split_ifs <;> rfl

@[simp] lemma applyJump_x (s : PetState) (o : RandOracle) : (applyJump s o).x = s.x := by
  unfold applyJump; split_ifs <;> rfl

@[simp] lemma applyJump_y (s : PetState) (o : RandOracle) : (applyJump s o).y = s.y := by
  unfold applyJump; split_ifs <;> rfl

@[simp] lemma applyJump_facing (s : PetState) (o : RandOracle) :
    (applyJump s o).facing_direction = s.facing_direction := by
  unfold applyJump; split_ifs <;> rfl

lemma applyJump_of_airborne (s : PetState) (o : RandOracle)
    (hg : s.is_on_ground = false) : applyJump s o = s := by
  unfold applyJump; rw [hg]; rfl

@[simp] lemma integratePos_vx (s : PetState) (dt : ℚ) :
    (integratePos s dt).velocity_x = s.velocity_x := rfl

@[simp] lemma integratePos_vy (s : PetState) (dt : ℚ) :
    (integratePos s dt).velocity_y = s.velocity_y := rfl

@[simp] lemma integratePos_ground (s : PetState) (dt : ℚ) :
    (integratePos s dt).is_on_ground = s.is_on_ground := rfl

@[simp] lemma integratePos_facing (s : PetState) (dt : ℚ) :
    (integratePos s dt).facing_direction = s.facing_direction := rfl

@[simp] lemma resolveFloor_x (s : PetState) (eh : ℚ) : (resolveFloor s eh).x = s.x := by
  unfold resolveFloor; split_ifs <;> rfl

@[simp] lemma resolveFloor_vx (s : PetState) (eh : ℚ) :
    (resolveFloor s eh).velocity_x = s.velocity_x := by
  unfold resolveFloor; split_ifs <;> rfl

@[simp] lemma resolveFloor_facing (s : PetState) (eh : ℚ) :
    (resolveFloor s eh).facing_direction = s.facing_direction := by
  unfold resolveFloor; split_ifs <;> rfl

@[simp] lemma resolveCeiling_x (s : PetState) : (resolveCeiling s).x = s.x := by
  unfold resolveCeiling; split_ifs <;> rfl

@[simp] lemma resolveCeiling_vx (s : PetState) :
    (resolveCeiling s).velocity_x = s.velocity_x := by
  unfold resolveCeiling; split_ifs <;> rfl

@[simp] lemma resolveCeiling_ground (s : PetState) :
    (resolveCeiling s).is_on_ground = s.is_on_ground := by
  unfold resolveCeiling; split_ifs <;> rfl

@[simp] lemma resolveCeiling_facing (s : PetState) :
    (resolveCeiling s).facing_direction = s.facing_direction := by
  unfold resolveCeiling; split_ifs <;> rfl

@[simp] lemma resolveLeft_y (s : PetState) : (resolveLeft s).y = s.y := by
  unfold resolveLeft; split_ifs <;> rfl

@[simp] lemma resolveLeft_vy (s : PetState) : (resolveLeft s).velocity_y = s.velocity_y := by
  unfold resolveLeft; split_ifs <;> rfl

@[simp] lemma resolveLeft_ground (s : PetState) :
    (resolveLeft s).is_on_ground = s.is_on_ground := by
  unfold resolveLeft; split_ifs <;> rfl

@[simp] lemma resolveRight_y (s : PetState) (ew : ℚ) : (resolveRight s ew).y = s.y := by
  unfold resolveRight; split_ifs <;> rfl

@[simp] lemma resolveRight_vy (s : PetState) (ew : ℚ) :
    (resolveRight s ew).velocity_y = s.velocity_y := by
  unfold resolveRight; split_ifs <;> rfl

@[simp] lemma resolveRight_ground (s : PetState) (ew : ℚ) :
    (resolveRight s ew).is_on_ground = s.is_on_ground := by
  unfold resolveRight; split_ifs <;> rfl

@[simp] lemma update_x (s : PetState) (o : RandOracle) (e w h : ℚ) :
    (s.update o e w h).x = (afterRight s o e w h).x := rfl

@[simp] lemma update_y (s : PetState) (o : RandOracle) (e w h : ℚ) :
    (s.update o e w h).y = (afterRight s o e w h).y := rfl

@[simp] lemma update_vx (s : PetState) (o : RandOracle) (e w h : ℚ) :
    (s.update o e w h).velocity_x = (afterRight s o e w h).velocity_x := rfl

@[simp] lemma update_vy (s : PetState) (o : RandOracle) (e w h : ℚ) :
    (s.update o e w h).velocity_y = (afterRight s o e w h).velocity_y := rfl

@[simp] lemma update_ground (s : PetState) (o : RandOracle) (e w h : ℚ) :
    (s.update o e w h).is_on_ground = (afterRight s o e w h).is_on_ground := rfl

@[simp] lemma update_facing (s : PetState) (o : RandOracle) (e w h : ℚ) :
    (s.update o e w h).facing_direction = (afterRight s o e w h).facing_direction := rfl

@[simp] lemma update_anim (s : PetState) (o : RandOracle) (e w h : ℚ) :
    (s.update o e w h).animation_state = classify (afterRight s o e w h) := rfl

/-! ### Clamp-value lemmas -/

lemma resolveFloor_y_cases (s : PetState) (eh : ℚ) :
    (resolveFloor s eh).y = if eh - PET_HEIGHT < s.y then eh - PET_HEIGHT else s.y := by
  unfold resolveFloor; split_ifs <;> rfl

lemma resolveCeiling_y_cases (s : PetState) :
    (resolveCeiling s).y = if s.y < 0 then 0 else s.y := by
  unfold resolveCeiling; split_ifs <;> rfl

lemma resolveLeft_x_cases (s : PetState) :
    (resolveLeft s).x = if s.x < 0 then 0 else s.x := by
  unfold resolveLeft; split_ifs <;> rfl

lemma resolveRight_x_cases (s : PetState) (ew : ℚ) :
    (resolveRight s ew).x = if ew - PET_WIDTH < s.x then ew - PET_WIDTH else s.x := by
  unfold resolveRight; split_ifs <;> rfl

lemma resolveLeft_facing_cases (s : PetState) :
    (resolveLeft s).facing_direction =
      if s.x < 0 then true else s.facing_direction := by
  unfold resolveLeft; split_ifs <;> rfl

lemma resolveRight_facing_cases (s : PetState) (ew : ℚ) :
    (resolveRight s ew).facing_direction =
      if ew - PET_WIDTH < s.x then false else s.facing_direction := by
  unfold resolveRight; split_ifs <;> rfl

lemma floorCeiling_y_bounds (s : PetState) (eh : ℚ) (hh : PET_HEIGHT ≤ eh) :
    0 ≤ (resolveCeiling (resolveFloor s eh)).y ∧
      (resolveCeiling (resolveFloor s eh)).y ≤ eh - PET_HEIGHT := by
  rw [resolveCeiling_y_cases, resolveFloor_y_cases]
  split_ifs <;> constructor <;> linarith

lemma leftRight_x_bounds (s : PetState) (ew : ℚ) (hw : PET_WIDTH ≤ ew) :
    0 ≤ (resolveRight (resolveLeft s) ew).x ∧
      (resolveRight (resolveLeft s) ew).x ≤ ew - PET_WIDTH := by
  rw [resolveRight_x_cases, resolveLeft_x_cases]
  split_ifs <;> constructor <;> linarith

lemma effectiveWidthUpd_of_default_le (w : ℚ) (hw : DEFAULT_WINDOW_WIDTH ≤ w) :
    effectiveWidthUpd w = w := by
  unfold effectiveWidthUpd DEFAULT_WINDOW_WIDTH at *
  rw [if_neg]; linarith

lemma effectiveHeightUpd_of_default_le (h : ℚ) (hh : DEFAULT_WINDOW_HEIGHT ≤ h) :
    effectiveHeightUpd h = h := by
  unfold effectiveHeightUpd DEFAULT_WINDOW_HEIGHT at *
  rw [if_neg]; linarith

/-- Any single `update` call with a viewport at least the default size leaves
the position inside that viewport's bounds, whatever the input state. -/
lemma update_inBounds (s : PetState) (o : RandOracle) (e w h : ℚ)
    (hw : DEFAULT_WINDOW_WIDTH ≤ w) (hh : DEFAULT_WINDOW_HEIGHT ≤ h) :
    inBounds (s.update o e w h) w h := by
  have hew : effectiveWidthUpd w = w := effectiveWidthUpd_of_default_le w hw
  have heh : effectiveHeightUpd h = h := effectiveHeightUpd_of_default_le h hh
  have hpw : PET_WIDTH ≤ effectiveWidthUpd w := by
    rw [hew]; unfold PET_WIDTH DEFAULT_WINDOW_WIDTH at *; linarith
  have hph : PET_HEIGHT ≤ effectiveHeightUpd h := by
    rw [heh]; unfold PET_HEIGHT DEFAULT_WINDOW_HEIGHT at *; linarith
  have hx := leftRight_x_bounds (afterCeiling s o e w h) (effectiveWidthUpd w) hpw
  have hy := floorCeiling_y_bounds (preResolve s o e w h) (effectiveHeightUpd h) hph
  unfold inBounds
  rw [update_x, update_y]
  unfold afterRight afterLeft
  refine ⟨hx.1, ?_, ?_, ?_⟩
  · linarith [hx.2, hew]
  · rw [resolveRight_y, resolveLeft_y]
    unfold afterCeiling afterFloor
    exact hy.1
  · rw [resolveRight_y, resolveLeft_y]
    unfold afterCeiling afterFloor
    linarith [hy.2, heh]

/-- C1: for every sequence of `advance` (`get_pet_movement`) calls starting
from a reset state, with every call's viewport dimensions at least the
defaults (width ≥ 400, height ≥ 300), after each call the position satisfies
`x ∈ [0, width - pet_width]` and `y ∈ [0, height - pet_height]` for that
call's viewport. -/
theorem bounds_invariant_over_sequences (w0 h0 : ℚ) (l : List StepIn)
    (hvp : ∀ st ∈ l, DEFAULT_WINDOW_WIDTH ≤ st.w ∧ DEFAULT_WINDOW_HEIGHT ≤ st.h)
    (i : ℕ) (hi : i < l.length) :
    inBounds (runSteps (PetState.new w0 h0) (l.take (i + 1))) l[i].w l[i].h := by
  obtain ⟨hw, hh⟩ := hvp _ (l.getElem_mem hi)
  have htake : l.take i ++ [l[i]] = l.take (i + 1) := List.take_concat_get' l i hi
  rw [← htake]
  unfold runSteps
  rw [List.foldl_append]
  simp only [List.foldl_cons, List.foldl_nil]
  exact update_inBounds _ _ _ _ _ hw hh

/-- Witness for C1: one call from `reset(400, 300)` with the default viewport. -/
theorem bounds_invariant_over_sequences_witness :
    inBounds (runSteps (PetState.new 400 300)
        (([⟨⟨false, 0, 0, false⟩, 0, 400, 300⟩] : List StepIn).take (0 + 1))) 400 300 := by
  have h := bounds_invariant_over_sequences 400 300
      ([⟨⟨false, 0, 0, false⟩, 0, 400, 300⟩] : List StepIn)
      (by
        intro st hst
        rw [List.mem_singleton] at hst
        subst hst
        constructor <;> norm_num [DEFAULT_WINDOW_WIDTH, DEFAULT_WINDOW_HEIGHT])
      0 (by norm_num)
  exact h

/-! ### The grounded-zero-vy invariant -/

lemma groundedZeroVy_cacheWindow (s : PetState) (w h : ℚ)
    (hs : groundedZeroVy s) : groundedZeroVy (cacheWindow s w h) := by
  intro hg
  rw [cacheWindow_vy]
  exact hs (by rwa [cacheWindow_ground] at hg)

lemma groundedZeroVy_applyGravity (s : PetState) (dt : ℚ)
    (hs : groundedZeroVy s) : groundedZeroVy (applyGravity s dt) := by
  intro hg
  rw [applyGravity_ground] at hg
  unfold applyGravity
  rw [hg]
  simp only [if_true]
  exact hs hg

lemma groundedZeroVy_applyJump (s : PetState) (o : RandOracle)
    (hs : groundedZeroVy s) : groundedZeroVy (applyJump s o) := by
  unfold groundedZeroVy applyJump
  split_ifs <;> first
    | exact fun hg => hg.elim
    | exact hs

lemma groundedZeroVy_integratePos (s : PetState) (dt : ℚ)
    (hs : groundedZeroVy s) : groundedZeroVy (integratePos s dt) := by
  intro hg
  rw [integratePos_vy]
  exact hs (by rwa [integratePos_ground] at hg)

lemma groundedZeroVy_resolveFloor (s : PetState) (eh : ℚ)
    (hs : groundedZeroVy s) : groundedZeroVy (resolveFloor s eh) := by
  unfold groundedZeroVy resolveFloor
  split_ifs
  · intro _; rfl
  · exact hs

lemma groundedZeroVy_resolveCeiling (s : PetState)
    (hs : groundedZeroVy s) : groundedZeroVy (resolveCeiling s) := by
  unfold groundedZeroVy resolveCeiling
  split_ifs
  · intro _; rfl
  · exact hs

lemma groundedZeroVy_resolveLeft (s : PetState)
    (hs : groundedZeroVy s) : groundedZeroVy (resolveLeft s) := by
  intro hg
  rw [resolveLeft_vy]
  exact hs (by rwa [resolveLeft_ground] at hg)

lemma groundedZeroVy_resolveRight (s : PetState) (ew : ℚ)
    (hs : groundedZeroVy s) : groundedZeroVy (resolveRight s ew) := by
  intro hg
  rw [resolveRight_vy]
  exact hs (by rwa [resolveRight_ground] at hg)

lemma groundedZeroVy_update (s : PetState) (o : RandOracle) (e w h : ℚ)
    (hs : groundedZeroVy s) : groundedZeroVy (s.update o e w h) := by
  intro hg
  rw [update_vy]
  rw [update_ground] at hg
  revert hg
  unfold afterRight afterLeft afterCeiling afterFloor preResolve
  exact groundedZeroVy_resolveRight _ _
    (groundedZeroVy_resolveLeft _
      (groundedZeroVy_resolveCeiling _
        (groundedZeroVy_resolveFloor _ _
          (groundedZeroVy_integratePos _ _
            (groundedZeroVy_applyJump _ _
              (groundedZeroVy_applyGravity _ _
                (groundedZeroVy_cacheWindow _ _ _ hs)))))))

lemma groundedZeroVy_runSteps (s : PetState) (l : List StepIn)
    (hs : groundedZeroVy s) : groundedZeroVy (runSteps s l) := by
  induction l generalizing s with
  | nil => exact hs
  | cons st rest ih =>
    exact ih _ (groundedZeroVy_update s st.oracle st.elapsed st.w st.h hs)

/-- C2: in every state reachable from a reset state by `advance` calls,
`is_on_ground = true` immediately after a call implies `velocity_y = 0`. -/
theorem grounded_implies_zero_vy (w0 h0 : ℚ) (l : List StepIn)
    (hg : (runSteps (PetState.new w0 h0) l).is_on_ground = true) :
    (runSteps (PetState.new w0 h0) l).velocity_y = 0 :=
  groundedZeroVy_runSteps (PetState.new w0 h0) l (fun _ => rfl) hg

/-- Witness for C2: after one quiescent call from `reset(400, 300)` the pet is
still grounded, and indeed has zero vertical velocity. -/
theorem grounded_implies_zero_vy_witness :
    (runSteps (PetState.new 400 300)
        ([⟨⟨false, 0, 0, false⟩, 0, 400, 300⟩] : List StepIn)).velocity_y = 0 :=
  grounded_implies_zero_vy 400 300
    ([⟨⟨false, 0, 0, false⟩, 0, 400, 300⟩] : List StepIn)
    (by
      norm_num [runSteps, PetState.update, afterRight, afterLeft, afterCeiling, afterFloor,
        preResolve, cacheWindow, computeDeltaTime, applyGravity, applyJump, integratePos,
        resolveFloor, resolveCeiling, resolveLeft, resolveRight, PetState.new, fabs, fmin,
        effectiveWidthUpd, effectiveHeightUpd, effectiveWidthNew, effectiveHeightNew,
        PET_WIDTH, PET_HEIGHT, DEFAULT_WINDOW_WIDTH, DEFAULT_WINDOW_HEIGHT, GRAVITY,
        JUMP_FORCE, BOUNCE_FACTOR_X, RIGHT_BOUNCE_FACTOR, MOVEMENT_THRESHOLD, classify])

/-! ### Viewport sanitisation thresholds (C3) -/

/-- Counterexample for C3: there is no single epsilon such that both `update`
and `new` replace dimensions at or below it with the default and use
dimensions above it as given — at width 10, `new` keeps the value while
`update` replaces it. -/
theorem no_shared_viewport_epsilon :
    ¬ ∃ ε : ℚ, ∀ w : ℚ,
      (w ≤ ε → effectiveWidthUpd w = DEFAULT_WINDOW_WIDTH ∧
        effectiveWidthNew w = DEFAULT_WINDOW_WIDTH) ∧
      (ε < w → effectiveWidthUpd w = w ∧ effectiveWidthNew w = w) := by
  rintro ⟨ε, hε⟩
  rcases le_or_lt (10 : ℚ) ε with h | h
  · have h1 := ((hε 10).1 h).2
    norm_num [effectiveWidthNew, DEFAULT_WINDOW_WIDTH] at h1
  · have h2 := ((hε 10).2 h).1
    norm_num [effectiveWidthUpd, DEFAULT_WINDOW_WIDTH] at h2

/-- C3 (amended): `advance` (`update`) replaces viewport dimensions at or
below 10.0 with the defaults 400 and 300 and uses dimensions above 10.0 as
given, while `reset` (`new`) replaces dimensions at or below 0.0 with the
defaults and uses dimensions above 0.0 as given; `new` builds the initial
position from the sanitised dimensions, and `update` resolves boundaries
against the sanitised dimensions. -/
theorem viewport_sanitisation_thresholds :
    (∀ w : ℚ, (w ≤ 10 → effectiveWidthUpd w = DEFAULT_WINDOW_WIDTH) ∧
      (10 < w → effectiveWidthUpd w = w)) ∧
    (∀ h : ℚ, (h ≤ 10 → effectiveHeightUpd h = DEFAULT_WINDOW_HEIGHT) ∧
      (10 < h → effectiveHeightUpd h = h)) ∧
    (∀ w : ℚ, (w ≤ 0 → effectiveWidthNew w = DEFAULT_WINDOW_WIDTH) ∧
      (0 < w → effectiveWidthNew w = w)) ∧
    (∀ h : ℚ, (h ≤ 0 → effectiveHeightNew h = DEFAULT_WINDOW_HEIGHT) ∧
      (0 < h → effectiveHeightNew h = h)) ∧
    (∀ w h : ℚ, (PetState.new w h).x = effectiveWidthNew w / 2 - PET_WIDTH / 2 ∧
      (PetState.new w h).y = effectiveHeightNew h - PET_HEIGHT) ∧
    (∀ s o e w h, afterFloor s o e w h =
        resolveFloor (preResolve s o e w h) (effectiveHeightUpd h) ∧
      afterRight s o e w h = resolveRight (afterLeft s o e w h) (effectiveWidthUpd w)) := by
  refine ⟨fun w => ⟨fun hw => ?_, fun hw => ?_⟩, fun h => ⟨fun hh => ?_, fun hh => ?_⟩,
    fun w => ⟨fun hw => ?_, fun hw => ?_⟩, fun h => ⟨fun hh => ?_, fun hh => ?_⟩,
    fun w h => ⟨rfl, rfl⟩, fun s o e w h => ⟨rfl, rfl⟩⟩
  · exact if_pos hw
  · exact if_neg (not_le.mpr hw)
  · exact if_pos hh
  · exact if_neg (not_le.mpr hh)
  · exact if_pos hw
  · exact if_neg (not_le.mpr hw)
  · exact if_pos hh
  · exact if_neg (not_le.mpr hh)

/-- Witness for C3 (amended): width 5 is kept by `new` but replaced by `update`. -/
theorem viewport_sanitisation_thresholds_witness :
    effectiveWidthUpd 5 = DEFAULT_WINDOW_WIDTH ∧ effectiveWidthNew 5 = 5 :=
  ⟨(viewport_sanitisation_thresholds.1 5).1 (by norm_num),
   (viewport_sanitisation_thresholds.2.2.1 5).2 (by norm_num)⟩

/-! ### Mutual exclusivity of the boundary clamps (C4) -/

/-- Counterexample for C4: with the 20×20 viewport (accepted as given by
`update`, since 20 > 10) and a state at `x = -5`, `y = 50`, the floor and
ceiling clamps both fire, and the left- and right-wall clamps both fire, in
one `advance` call. -/
theorem clamps_can_both_apply :
    floorApplies ⟨-5, 50, 0, 0, true, 20, 20, .IdleRight, true⟩ ⟨false, 0, 0, false⟩ 0 20 20 ∧
    ceilingApplies ⟨-5, 50, 0, 0, true, 20, 20, .IdleRight, true⟩ ⟨false, 0, 0, false⟩ 0 20 20 ∧
    leftApplies ⟨-5, 50, 0, 0, true, 20, 20, .IdleRight, true⟩ ⟨false, 0, 0, false⟩ 0 20 20 ∧
    rightApplies ⟨-5, 50, 0, 0, true, 20, 20, .IdleRight, true⟩ ⟨false, 0, 0, false⟩ 0 20 20 := by
  norm_num [floorApplies, ceilingApplies, leftApplies, rightApplies, afterLeft, afterCeiling,
    afterFloor, preResolve, cacheWindow, computeDeltaTime, applyGravity, applyJump,
    integratePos, resolveFloor, resolveCeiling, resolveLeft, fabs, fmin,
    effectiveWidthUpd, effectiveHeightUpd, PET_WIDTH, PET_HEIGHT,
    DEFAULT_WINDOW_WIDTH, DEFAULT_WINDOW_HEIGHT]

/-- C4 (amended): in any single `advance` call whose sanitised viewport is at
least the pet's bounding box (effective height ≥ pet height and effective
width ≥ pet width — in particular for any dimensions at least the 400×300
defaults), the floor and ceiling clamps never both apply, and the left- and
right-wall clamps never both apply. -/
theorem clamps_mutually_exclusive (s : PetState) (o : RandOracle) (e w h : ℚ)
    (hph : PET_HEIGHT ≤ effectiveHeightUpd h) (hpw : PET_WIDTH ≤ effectiveWidthUpd w) :
    ¬(floorApplies s o e w h ∧ ceilingApplies s o e w h) ∧
    ¬(leftApplies s o e w h ∧ rightApplies s o e w h) := by
  constructor
  · rintro ⟨hf, hc⟩
    unfold floorApplies at hf
    unfold ceilingApplies afterFloor at hc
    rw [resolveFloor_y_cases, if_pos hf] at hc
    linarith
  · rintro ⟨hl, hr⟩
    unfold leftApplies at hl
    unfold rightApplies afterLeft at hr
    rw [resolveLeft_x_cases, if_pos hl] at hr
    linarith

/-- Witness for C4 (amended): a concrete call with the default viewport. -/
theorem clamps_mutually_exclusive_witness :
    ¬(floorApplies (PetState.new 400 300) ⟨false, 0, 0, false⟩ 0 400 300 ∧
        ceilingApplies (PetState.new 400 300) ⟨false, 0, 0, false⟩ 0 400 300) ∧
    ¬(leftApplies (PetState.new 400 300) ⟨false, 0, 0, false⟩ 0 400 300 ∧
        rightApplies (PetState.new 400 300) ⟨false, 0, 0, false⟩ 0 400 300) :=
  clamps_mutually_exclusive (PetState.new 400 300) ⟨false, 0, 0, false⟩ 0 400 300
    (by norm_num [PET_HEIGHT, effectiveHeightUpd, DEFAULT_WINDOW_HEIGHT])
    (by norm_num [PET_WIDTH, effectiveWidthUpd, DEFAULT_WINDOW_WIDTH])

/-! ### The animation classifier (C5) -/

/-- C5: the animation label computed by `advance` is a deterministic function
(`classify`) of the post-resolution `(is_on_ground, velocity, facing_direction)`
triple, matching the classification table: airborne with `velocity_y < 0` is
Jumping, airborne with `velocity_y ≥ 0` is Falling, grounded with
`|velocity_x| > 5` is Running (right iff `velocity_x` is nonnegative), grounded
otherwise is Idle; left/right otherwise follows `facing_direction`. -/
theorem classifier_matches_table (s : PetState) :
    (∀ o e w h, (s.update o e w h).animation_state = classify (afterRight s o e w h)) ∧
    (s.is_on_ground = false → s.velocity_y < 0 →
      classify s = if s.facing_direction then .JumpingRight else .JumpingLeft) ∧
    (s.is_on_ground = false → 0 ≤ s.velocity_y →
      classify s = if s.facing_direction then .FallingRight else .FallingLeft) ∧
    (s.is_on_ground = true → MOVEMENT_THRESHOLD < |s.velocity_x| →
      classify s = if 0 ≤ s.velocity_x then .RunningRight else .RunningLeft) ∧
    (s.is_on_ground = true → |s.velocity_x| ≤ MOVEMENT_THRESHOLD →
      classify s = if s.facing_direction then .IdleRight else .IdleLeft) := by
  refine ⟨fun o e w h => update_anim s o e w h, fun hg hv => ?_, fun hg hv => ?_,
    fun hg hv => ?_, fun hg hv => ?_⟩
  · unfold classify
    rw [hg, fabs_eq_abs]
    simp only [Bool.false_eq_true, if_false]
    rw [if_pos hv]
  · unfold classify
    rw [hg, fabs_eq_abs]
    simp only [Bool.false_eq_true, if_false]
    rw [if_neg (not_lt.mpr hv)]
  · unfold classify
    rw [hg, fabs_eq_abs]
    simp only [if_true]
    rw [if_pos hv]
  · unfold classify
    rw [hg, fabs_eq_abs]
    simp only [if_true]
    rw [if_neg (not_lt.mpr hv)]

/-- Witness for C5: the reset state is grounded with zero horizontal velocity
and classifies as Idle facing right. -/
theorem classifier_matches_table_witness :
    classify (PetState.new 400 300) =
      if (PetState.new 400 300).facing_direction then AnimationState.IdleRight
      else AnimationState.IdleLeft :=
  (classifier_matches_table (PetState.new 400 300)).2.2.2.2
    (by norm_num [PetState.new])
    (by norm_num [PetState.new, MOVEMENT_THRESHOLD])

/-! ### Wall-bounce energy loss (C6) -/

/-- C6: a left-wall collision (`x < 0` at the check) rebounds the incoming
horizontal velocity scaled by 0.8 in the opposite direction and forces
`facing_direction = true`; a right-wall collision (`x` beyond
`width - pet_width` at the check) rebounds scaled by 0.5 in the opposite
direction and forces `facing_direction = false`. In a full `advance` call
whose sanitised width is at least the pet width, the respective incoming
velocity is the post-integration horizontal velocity. -/
theorem bounce_energy_loss :
    (∀ s : PetState, s.x < 0 →
      (resolveLeft s).velocity_x = -(BOUNCE_FACTOR_X * s.velocity_x) ∧
      (resolveLeft s).facing_direction = true) ∧
    (∀ (s : PetState) (ew : ℚ), ew - PET_WIDTH < s.x →
      (resolveRight s ew).velocity_x = -(RIGHT_BOUNCE_FACTOR * s.velocity_x) ∧
      (resolveRight s ew).facing_direction = false) ∧
    (∀ s o e w h, PET_WIDTH ≤ effectiveWidthUpd w →
      (leftApplies s o e w h →
        (s.update o e w h).velocity_x =
          -(BOUNCE_FACTOR_X * (preResolve s o e w h).velocity_x) ∧
        (s.update o e w h).facing_direction = true) ∧
      (rightApplies s o e w h →
        (s.update o e w h).velocity_x =
          -(RIGHT_BOUNCE_FACTOR * (preResolve s o e w h).velocity_x) ∧
        (s.update o e w h).facing_direction = false)) := by
  have hleft : ∀ s : PetState, s.x < 0 →
      (resolveLeft s).velocity_x = -(BOUNCE_FACTOR_X * s.velocity_x) ∧
      (resolveLeft s).facing_direction = true := by
    intro s hx
    unfold resolveLeft
    rw [if_pos hx]
    exact ⟨by ring, rfl⟩
  have hright : ∀ (s : PetState) (ew : ℚ), ew - PET_WIDTH < s.x →
      (resolveRight s ew).velocity_x = -(RIGHT_BOUNCE_FACTOR * s.velocity_x) ∧
      (resolveRight s ew).facing_direction = false := by
    intro s ew hx
    unfold resolveRight
    rw [if_pos hx]
    exact ⟨by ring, rfl⟩
  refine ⟨hleft, hright, fun s o e w h hpw => ⟨fun hl => ?_, fun hr => ?_⟩⟩
  · -- the left clamp fires; the right clamp then cannot, since x is clamped to 0
    have hl' : (afterCeiling s o e w h).x < 0 := hl
    have hstep := hleft (afterCeiling s o e w h) hl'
    have hnr : ¬(effectiveWidthUpd w - PET_WIDTH < (afterLeft s o e w h).x) := by
      unfold afterLeft
      rw [resolveLeft_x_cases, if_pos hl']
      linarith
    have hxv : (afterCeiling s o e w h).velocity_x = (preResolve s o e w h).velocity_x := by
      unfold afterCeiling afterFloor
      rw [resolveCeiling_vx, resolveFloor_vx]
    constructor
    · rw [update_vx]
      unfold afterRight
      rw [resolveRight, if_neg hnr]
      unfold afterLeft
      rw [hstep.1, hxv]
    · rw [update_facing]
      unfold afterRight
      rw [resolveRight, if_neg hnr]
      unfold afterLeft
      exact hstep.2
  · -- the right clamp fires; the left clamp cannot have fired before it
    have hr' : effectiveWidthUpd w - PET_WIDTH < (afterLeft s o e w h).x := hr
    have hnl : ¬((afterCeiling s o e w h).x < 0) := by
      intro hl'
      have : (afterLeft s o e w h).x = 0 := by
        unfold afterLeft
        rw [resolveLeft_x_cases, if_pos hl']
      rw [this] at hr'
      linarith
    have hal : afterLeft s o e w h = afterCeiling s o e w h := by
      unfold afterLeft resolveLeft
      rw [if_neg hnl]
    have hstep := hright (afterLeft s o e w h) (effectiveWidthUpd w) hr'
    have hxv : (afterLeft s o e w h).velocity_x = (preResolve s o e w h).velocity_x := by
      rw [hal]
      unfold afterCeiling afterFloor
      rw [resolveCeiling_vx, resolveFloor_vx]
    constructor
    · rw [update_vx]
      unfold afterRight
      rw [hstep.1, hxv]
    · rw [update_facing]
      unfold afterRight
      exact hstep.2

/-- Witness for C6: a state past the left wall bounces with factor 0.8 and
turns to face right. -/
theorem bounce_energy_loss_witness :
    (resolveLeft ⟨-3, 100, -10, 0, false, 400, 300, .FallingLeft, false⟩).velocity_x =
      -(BOUNCE_FACTOR_X * (-10)) ∧
    (resolveLeft ⟨-3, 100, -10, 0, false, 400, 300, .FallingLeft, false⟩).facing_direction =
      true :=
  bounce_energy_loss.1 ⟨-3, 100, -10, 0, false, 400, 300, .FallingLeft, false⟩ (by norm_num)

/-! ### The delta-time clamp (C7) -/

/-- C7: the integration step is `min(elapsed, 0.05)`: it is non-negative and
at most 0.05 seconds for any non-negative elapsed gap, a 10-second gap is
clamped to exactly 0.05, and an `advance` call after a 10-second gap computes
exactly what a 0.05-second-gap call computes. -/
theorem delta_time_clamp :
    (∀ e : ℚ, 0 ≤ e → 0 ≤ computeDeltaTime e ∧ computeDeltaTime e ≤ 1 / 20) ∧
    computeDeltaTime 10 = 1 / 20 ∧
    (∀ (s : PetState) (o : RandOracle) (w h : ℚ),
      s.update o 10 w h = s.update o (1 / 20) w h) := by
  have h10 : computeDeltaTime 10 = computeDeltaTime (1 / 20) := by
    norm_num [computeDeltaTime, fmin]
  refine ⟨fun e he => ?_, by norm_num [computeDeltaTime, fmin], fun s o w h => ?_⟩
  · unfold computeDeltaTime fmin
    split_ifs with h
    · exact ⟨he, h⟩
    · norm_num
  · simp only [PetState.update, afterRight, afterLeft, afterCeiling, afterFloor, preResolve]
    rw [h10]

/-- Witness for C7: a 3-second gap yields a step within `[0, 0.05]`. -/
theorem delta_time_clamp_witness :
    0 ≤ computeDeltaTime 3 ∧ computeDeltaTime 3 ≤ 1 / 20 :=
  delta_time_clamp.1 3 (by norm_num)

/-! ### Reset determinism (C8) -/

/-- C8: for every viewport accepted as given by `new` (both dimensions
positive), reset yields exactly `x = w/2 - pet_width/2`, `y = h - pet_height`,
zero velocity, grounded, facing right, and the idle-right label; `new` is a
function of the dimensions, so the result is identical on every call. -/
theorem reset_deterministic (w h : ℚ) (hw : 0 < w) (hh : 0 < h) :
    (PetState.new w h).x = w / 2 - PET_WIDTH / 2 ∧
    (PetState.new w h).y = h - PET_HEIGHT ∧
    (PetState.new w h).velocity_x = 0 ∧
    (PetState.new w h).velocity_y = 0 ∧
    (PetState.new w h).is_on_ground = true ∧
    (PetState.new w h).facing_direction = true ∧
    (PetState.new w h).animation_state = AnimationState.IdleRight ∧
    (PetState.new w h).animation_state.to_string = "idle-right" := by
  have hew : effectiveWidthNew w = w := by
    unfold effectiveWidthNew
    rw [if_neg (not_le.mpr hw)]
  have heh : effectiveHeightNew h = h := by
    unfold effectiveHeightNew
    rw [if_neg (not_le.mpr hh)]
  refine ⟨?_, ?_, rfl, rfl, rfl, rfl, rfl, rfl⟩
  · show effectiveWidthNew w / 2 - PET_WIDTH / 2 = w / 2 - PET_WIDTH / 2
    rw [hew]
  · show effectiveHeightNew h - PET_HEIGHT = h - PET_HEIGHT
    rw [heh]

/-- Witness for C8: reset with the default 400×300 viewport. -/
theorem reset_deterministic_witness :
    (PetState.new 400 300).x = 400 / 2 - PET_WIDTH / 2 ∧
    (PetState.new 400 300).y = 300 - PET_HEIGHT ∧
    (PetState.new 400 300).velocity_x = 0 ∧
    (PetState.new 400 300).velocity_y = 0 ∧
    (PetState.new 400 300).is_on_ground = true ∧
    (PetState.new 400 300).facing_direction = true ∧
    (PetState.new 400 300).animation_state = AnimationState.IdleRight ∧
    (PetState.new 400 300).animation_state.to_string = "idle-right" :=
  reset_deterministic 400 300 (by norm_num) (by norm_num)

/-! ### Airborne steps are oracle-independent (C9) -/

/-- C9: when the pet is airborne at the start of an `advance` call, no random
draw influences the result: two calls from the same state with the same
elapsed time and viewport but different oracles produce identical states
(position, velocity, ground flag, facing direction and animation label). -/
theorem airborne_update_oracle_independent (s : PetState) (o1 o2 : RandOracle)
    (e w h : ℚ) (hg : s.is_on_ground = false) :
    s.update o1 e w h = s.update o2 e w h := by
  have hj : ∀ o : RandOracle,
      applyJump (applyGravity (cacheWindow s w h) (computeDeltaTime e)) o =
        applyGravity (cacheWindow s w h) (computeDeltaTime e) := by
    intro o
    apply applyJump_of_airborne
    rw [applyGravity_ground, cacheWindow_ground]
    exact hg
  simp only [PetState.update, afterRight, afterLeft, afterCeiling, afterFloor, preResolve]
  rw [hj o1, hj o2]

/-- Witness for C9: an airborne state stepped with two different oracles. -/
theorem airborne_update_oracle_independent_witness :
    (⟨100, 100, 0, 0, false, 400, 300, .FallingRight, true⟩ : PetState).update
        ⟨true, 7, -7, true⟩ 0 400 300 =
      (⟨100, 100, 0, 0, false, 400, 300, .FallingRight, true⟩ : PetState).update
        ⟨false, 3, -3, false⟩ 0 400 300 :=
  airborne_update_oracle_independent
    ⟨100, 100, 0, 0, false, 400, 300, .FallingRight, true⟩
    ⟨true, 7, -7, true⟩ ⟨false, 3, -3, false⟩ 0 400 300 rfl

/-! ### Facing direction changes only through wall collisions (C10) -/

/-- C10: `advance` changes `facing_direction` only through the wall branches:
the spontaneous jump (including the velocity-inversion case) never modifies
it, a call where neither wall clamp fires leaves it unchanged, the left-wall
clamp forces it to true, and the right-wall clamp forces it to false. -/
theorem facing_changes_only_via_walls (s : PetState) (o : RandOracle) (e w h : ℚ) :
    (∀ (s' : PetState) (o' : RandOracle),
      (applyJump s' o').facing_direction = s'.facing_direction) ∧
    (¬leftApplies s o e w h → ¬rightApplies s o e w h →
      (s.update o e w h).facing_direction = s.facing_direction) ∧
    (leftApplies s o e w h → ¬rightApplies s o e w h →
      (s.update o e w h).facing_direction = true) ∧
    (rightApplies s o e w h → (s.update o e w h).facing_direction = false) := by
  have hpre : (afterCeiling s o e w h).facing_direction = s.facing_direction := by
    simp only [afterCeiling, afterFloor, preResolve]
    rw [resolveCeiling_facing, resolveFloor_facing, integratePos_facing, applyJump_facing,
      applyGravity_facing, cacheWindow_facing]
  refine ⟨fun s' o' => applyJump_facing s' o', fun hnl hnr => ?_, fun hl hnr => ?_,
    fun hr => ?_⟩
  · rw [update_facing]
    unfold rightApplies at hnr
    unfold leftApplies at hnl
    unfold afterRight
    rw [resolveRight_facing_cases, if_neg hnr]
    unfold afterLeft
    rw [resolveLeft_facing_cases, if_neg hnl]
    exact hpre
  · rw [update_facing]
    unfold rightApplies at hnr
    unfold leftApplies at hl
    unfold afterRight
    rw [resolveRight_facing_cases, if_neg hnr]
    unfold afterLeft
    rw [resolveLeft_facing_cases, if_pos hl]
  · rw [update_facing]
    unfold rightApplies at hr
    unfold afterRight
    rw [resolveRight_facing_cases, if_pos hr]

/-- Witness for C10: a quiescent call from the reset state, where neither wall
clamp fires, keeps the pet facing right. -/
theorem facing_changes_only_via_walls_witness :
    ((PetState.new 400 300).update ⟨false, 0, 0, false⟩ 0 400 300).facing_direction =
      (PetState.new 400 300).facing_direction :=
  (facing_changes_only_via_walls (PetState.new 400 300) ⟨false, 0, 0, false⟩ 0 400 300).2.1
    (by
      norm_num [leftApplies, afterCeiling, afterFloor, preResolve, cacheWindow,
        computeDeltaTime, applyGravity, applyJump, integratePos, resolveFloor,
        resolveCeiling, PetState.new, fabs, fmin, effectiveWidthUpd, effectiveHeightUpd,
        effectiveWidthNew, effectiveHeightNew, PET_WIDTH, PET_HEIGHT,
        DEFAULT_WINDOW_WIDTH, DEFAULT_WINDOW_HEIGHT])
    (by
      norm_num [rightApplies, afterLeft, afterCeiling, afterFloor, preResolve, cacheWindow,
        computeDeltaTime, applyGravity, applyJump, integratePos, resolveFloor,
        resolveCeiling, resolveLeft, PetState.new, fabs, fmin, effectiveWidthUpd,
        effectiveHeightUpd, effectiveWidthNew, effectiveHeightNew, PET_WIDTH, PET_HEIGHT,
        DEFAULT_WINDOW_WIDTH, DEFAULT_WINDOW_HEIGHT])
